import Mathlib

set_option autoImplicit false

namespace Kapsule

/- ============================================================================
   Section 1: Option schema and validator.

   Modelled from the spec: the daemon module container_options.py (option
   schema, Validate/parse_options, ContainerOptions) is not under src/; only
   its callers (CLI flags in tests, the QML form, types.h) and the spec
   describe it.  Values on the wire are the a{sv} variants of the schema
   types boolean | string | array-of-string.  The concrete CREATE_SCHEMA
   below takes its keys and defaults from src/src/libkapsule-qt/types.h
   (ContainerOptions field defaults) and its single dependency map from
   blog-post.md (nvidia_drivers requires gpu=true).
   ========================================================================= -/

/-- A wire value of one of the three schema-supported types. -/
inductive Value where
  | bool (b : Bool)
  | str (s : String)
  | arr (xs : List String)
deriving DecidableEq

/-- Declared type of a schema option. -/
inductive OptType where
  | boolean
  | string
  | array
deriving DecidableEq

/-- The type a wire value actually has. -/
def Value.typeOf : Value → OptType
  | .bool _ => .boolean
  | .str _ => .string
  | .arr _ => .array

/-- One option descriptor of the create-container schema. -/
structure SchemaOption where
  key : String
  type : OptType
  default : Value
  requires : List (String × Value)
deriving DecidableEq

/-- The flat option schema (sections flattened in order). -/
abbrev Schema := List SchemaOption

/-- A raw caller-supplied option map (wire a{sv} dict). -/
abbrev RawMap := List (String × Value)

/-- First binding of a key in a raw map. -/
def lookupKey : RawMap → String → Option Value
  | [], _ => none
  | kv :: rest, k => if kv.1 = k then some kv.2 else lookupKey rest k

/-- The keys declared by a schema. -/
def schemaKeys (s : Schema) : List String := s.map SchemaOption.key

/-- First schema option with a given key. -/
def findOpt : Schema → String → Option SchemaOption
  | [], _ => none
  | o :: rest, k => if o.key = k then some o else findOpt rest k

/-- Schema-declared default of a key, when the key is in the schema. -/
def schemaDefault (s : Schema) (k : String) : Option Value :=
  (findOpt s k).map SchemaOption.default

/-- Effective value of a key: caller-set if supplied, otherwise the schema
default (spec 4.2 step 4). -/
def effValue (s : Schema) (raw : RawMap) (k : String) : Option Value :=
  match lookupKey raw k with
  | some v => some v
  | none => schemaDefault s k

/-- Validation failure taxonomy of spec 7. -/
inductive ValidationError where
  | unknownOption (key : String)
  | typeMismatch (key : String)
  | dependencyViolation (key depKey : String)
deriving DecidableEq

/-- First raw key not present in the schema (spec 4.2 step 1). -/
def findUnknown (s : Schema) : RawMap → Option String
  | [] => none
  | kv :: rest => if kv.1 ∈ schemaKeys s then findUnknown s rest else some kv.1

/-- First raw key whose supplied value does not match its declared type
(spec 4.2 step 3). -/
def findTypeError (s : Schema) : RawMap → Option String
  | [] => none
  | kv :: rest =>
    match findOpt s kv.1 with
    | some o => if kv.2.typeOf = o.type then findTypeError s rest else some kv.1
    | none => findTypeError s rest

/-- First key of a dependency map whose effective value does not match the
required value. -/
def firstUnmetDep (s : Schema) (raw : RawMap) : List (String × Value) → Option String
  | [] => none
  | d :: rest => if effValue s raw d.1 = some d.2 then firstUnmetDep s raw rest else some d.1

/-- First (option key, dependency key) pair violated across a list of schema
options (spec 4.2 step 4). -/
def findDepViolation (s : Schema) (raw : RawMap) : Schema → Option (String × String)
  | [] => none
  | o :: rest =>
    match firstUnmetDep s raw o.requires with
    | some dk => some (o.key, dk)
    | none => findDepViolation s raw rest

/-- The fully-populated normalized map: every schema key, caller-set value
when supplied, schema default otherwise (spec 4.2 steps 2 and 5). -/
def normalize (s : Schema) (raw : RawMap) : RawMap :=
  s.map (fun o => (o.key, (lookupKey raw o.key).getD o.default))

/-- Modelled from the spec: Validate(raw_map) of spec 4.2 (the daemon function
parse_options in container_options.py is not under src/).  Steps in order:
reject unknown keys, type-check supplied values, enforce dependency maps on
effective (caller-set-or-default) values, return the fully-populated map.
Pure: no backend state is read or written. -/
def Validate (s : Schema) (raw : RawMap) : Except ValidationError RawMap :=
  match findUnknown s raw with
  | some k => .error (.unknownOption k)
  | none =>
    match findTypeError s raw with
    | some k => .error (.typeMismatch k)
    | none =>
      match findDepViolation s raw s with
      | some kd => .error (.dependencyViolation kd.1 kd.2)
      | none => .ok (normalize s raw)

/-- The concrete Kapsule create-container schema: keys and defaults from the
ContainerOptions struct in src/src/libkapsule-qt/types.h; the nvidia_drivers
option requires gpu=true (blog-post.md option descriptor example). -/
def CREATE_SCHEMA : Schema :=
  [ { key := "session_mode", type := .boolean, default := .bool false, requires := [] },
    { key := "dbus_mux", type := .boolean, default := .bool false, requires := [] },
    { key := "host_rootfs", type := .boolean, default := .bool true, requires := [] },
    { key := "mount_home", type := .boolean, default := .bool true, requires := [] },
    { key := "custom_mounts", type := .array, default := .arr [], requires := [] },
    { key := "gpu", type := .boolean, default := .bool true, requires := [] },
    { key := "nvidia_drivers", type := .boolean, default := .bool true,
      requires := [("gpu", .bool true)] } ]

/-- Schema well-formedness: distinct keys, and every default value has the
declared type.  Holds for the concrete schema (checked by decide). -/
abbrev SchemaWF (s : Schema) : Prop :=
  (schemaKeys s).Nodup ∧ ∀ o ∈ s, o.default.typeOf = o.type

example : SchemaWF CREATE_SCHEMA := by decide

example : Validate CREATE_SCHEMA [] =
    .ok (normalize CREATE_SCHEMA []) := rfl

example : Validate CREATE_SCHEMA [("bogus", .bool true)] =
    .error (.unknownOption "bogus") := rfl

example : Validate CREATE_SCHEMA [("gpu", .bool false)] =
    .error (.dependencyViolation "nvidia_drivers" "gpu") := rfl

example : Validate CREATE_SCHEMA [("mount_home", .str "x")] =
    .error (.typeMismatch "mount_home") := rfl

/- --------------------------------------------------------------------------
   Validator lemmas
   ----------------------------------------------------------------------- -/

theorem lookupKey_some_mem (raw : RawMap) (k : String) (v : Value)
    (h : lookupKey raw k = some v) : (k, v) ∈ raw := by
  induction raw with
  | nil => cases h
  | cons e rest ih =>
    by_cases he : e.1 = k
    · simp [lookupKey, he] at h
      subst he; subst h
      exact List.mem_cons_self _ _
    · simp [lookupKey, he] at h
      exact List.mem_cons_of_mem _ (ih h)

theorem findOpt_key (s : Schema) (k : String) (o : SchemaOption)
    (h : findOpt s k = some o) : o.key = k := by
  induction s with
  | nil => cases h
  | cons e rest ih =>
    by_cases he : e.key = k
    · simp [findOpt, he] at h; subst h; exact he
    · simp [findOpt, he] at h; exact ih h

theorem findOpt_mem (s : Schema) (k : String) (o : SchemaOption)
    (h : findOpt s k = some o) : o ∈ s := by
  induction s with
  | nil => cases h
  | cons e rest ih =>
    by_cases he : e.key = k
    · simp [findOpt, he] at h; subst h; exact List.mem_cons_self _ _
    · simp [findOpt, he] at h; exact List.mem_cons_of_mem _ (ih h)

theorem findOpt_eq_none_iff (s : Schema) (k : String) :
    findOpt s k = none ↔ k ∉ schemaKeys s := by
  induction s with
  | nil => simp [findOpt, schemaKeys]
  | cons e rest ih =>
    simp only [findOpt, schemaKeys, List.map_cons, List.mem_cons, not_or] at ih ⊢
    by_cases he : e.key = k
    · simp [he]
    · rw [if_neg he, ih]
      simp [List.mem_map, Ne.symm he]

theorem findOpt_eq_some_of_nodup (s : Schema) (o : SchemaOption)
    (ho : o ∈ s) (hnd : (schemaKeys s).Nodup) : findOpt s o.key = some o := by
  induction s with
  | nil => cases ho
  | cons e rest ih =>
    rcases List.mem_cons.1 ho with rfl | hm
    · simp [findOpt]
    · have hne : e.key ≠ o.key := by
        intro hk
        have : o.key ∈ schemaKeys rest := List.mem_map_of_mem _ hm
        rw [← hk] at this
        exact (List.nodup_cons.1 hnd).1 this
      have : (schemaKeys rest).Nodup := by
        simpa [schemaKeys] using (List.nodup_cons.1 hnd).2
      simp [findOpt, hne, ih hm this]

theorem findUnknown_eq_none (s : Schema) (raw : RawMap) :
    findUnknown s raw = none ↔ ∀ kv ∈ raw, kv.1 ∈ schemaKeys s := by
  induction raw with
  | nil => simp [findUnknown]
  | cons kv rest ih =>
    by_cases h : kv.1 ∈ schemaKeys s <;> simp [findUnknown, h, ih]

theorem findUnknown_mem_of_unknown (s : Schema) (raw : RawMap) (kv : String × Value)
    (hmem : kv ∈ raw) (hunk : kv.1 ∉ schemaKeys s) :
    ∃ k, findUnknown s raw = some k ∧ k ∈ raw.map Prod.fst ∧ k ∉ schemaKeys s := by
  induction raw with
  | nil => cases hmem
  | cons e rest ih =>
    by_cases h : e.1 ∈ schemaKeys s
    · rcases List.mem_cons.1 hmem with rfl | hm
      · exact absurd h hunk
      · obtain ⟨k, hk, hkm, hku⟩ := ih hm
        exact ⟨k, by simp [findUnknown, h, hk], by simp [hkm], hku⟩
    · exact ⟨e.1, by simp [findUnknown, h], by simp, h⟩

theorem findTypeError_eq_none (s : Schema) (raw : RawMap) :
    findTypeError s raw = none ↔
      ∀ kv ∈ raw, ∀ o, findOpt s kv.1 = some o → kv.2.typeOf = o.type := by
  induction raw with
  | nil => simp [findTypeError]
  | cons kv rest ih =>
    cases hf : findOpt s kv.1 with
    | none => simp [findTypeError, hf, ih]
    | some o =>
      by_cases ht : kv.2.typeOf = o.type <;> simp [findTypeError, hf, ht, ih]


theorem validate_eq_ok (s : Schema) (raw opts : RawMap) :
    Validate s raw = .ok opts ↔
      findUnknown s raw = none ∧ findTypeError s raw = none ∧
      findDepViolation s raw s = none ∧ opts = normalize s raw := by
  unfold Validate
  cases h1 : findUnknown s raw <;> cases h2 : findTypeError s raw <;>
    cases h3 : findDepViolation s raw s <;> simp [eq_comm]

theorem mem_normalize (s : Schema) (raw : RawMap) (kv : String × Value)
    (h : kv ∈ normalize s raw) :
    ∃ o ∈ s, kv = (o.key, (lookupKey raw o.key).getD o.default) := by
  simp only [normalize, List.mem_map] at h
  obtain ⟨o, ho, rfl⟩ := h
  exact ⟨o, ho, rfl⟩

theorem lookupKey_normalize (s : Schema) (raw : RawMap) (k : String) :
    lookupKey (normalize s raw) k =
      (findOpt s k).map (fun o => (lookupKey raw o.key).getD o.default) := by
  induction s with
  | nil => rfl
  | cons o rest ih =>
    by_cases h : o.key = k <;> simp [normalize, lookupKey, findOpt, h] <;>
      simpa [normalize] using ih

theorem effValue_normalize (s : Schema) (raw : RawMap)
    (hunk : findUnknown s raw = none) (k : String) :
    effValue s (normalize s raw) k = effValue s raw k := by
  unfold effValue
  rw [lookupKey_normalize]
  cases hf : findOpt s k with
  | some o =>
    have hk := findOpt_key s k o hf
    cases hl : lookupKey raw k with
    | some v => simp [hk, hl]
    | none => simp [hk, hl, schemaDefault, hf]
  | none =>
    have hnone : lookupKey raw k = none := by
      cases hl : lookupKey raw k with
      | none => rfl
      | some v =>
        have hm := lookupKey_some_mem raw k v hl
        have hkk : k ∈ schemaKeys s := (findUnknown_eq_none s raw).1 hunk (k, v) hm
        exact absurd hkk ((findOpt_eq_none_iff s k).1 hf)
    simp [hnone, schemaDefault, hf]

theorem firstUnmetDep_congr (s : Schema) (raw₁ raw₂ : RawMap)
    (h : ∀ k, effValue s raw₁ k = effValue s raw₂ k)
    (deps : List (String × Value)) :
    firstUnmetDep s raw₁ deps = firstUnmetDep s raw₂ deps := by
  induction deps with
  | nil => rfl
  | cons d rest ih => simp [firstUnmetDep, h d.1, ih]

theorem findDepViolation_congr (s : Schema) (raw₁ raw₂ : RawMap)
    (h : ∀ k, effValue s raw₁ k = effValue s raw₂ k)
    (l : Schema) :
    findDepViolation s raw₁ l = findDepViolation s raw₂ l := by
  induction l with
  | nil => rfl
  | cons o rest ih =>
    have hfd := firstUnmetDep_congr s raw₁ raw₂ h o.requires
    simp [findDepViolation, hfd, ih]

theorem normalize_normalize (s : Schema) (raw : RawMap)
    (hnd : (schemaKeys s).Nodup) :
    normalize s (normalize s raw) = normalize s raw := by
  apply List.map_congr_left
  intro o ho
  rw [lookupKey_normalize, findOpt_eq_some_of_nodup s o ho hnd]
  simp

theorem validate_normalize_ok (s : Schema) (raw : RawMap) (hwf : SchemaWF s)
    (opts : RawMap) (h : Validate s raw = .ok opts) : Validate s opts = .ok opts := by
  obtain ⟨h1, h2, h3, rfl⟩ := (validate_eq_ok s raw opts).1 h
  rw [validate_eq_ok]
  refine ⟨?_, ?_, ?_, (normalize_normalize s raw hwf.1).symm⟩
  · rw [findUnknown_eq_none]
    intro kv hkv
    obtain ⟨o, ho, rfl⟩ := mem_normalize s raw kv hkv
    exact List.mem_map_of_mem _ ho
  · rw [findTypeError_eq_none]
    intro kv hkv o₁ hfo
    obtain ⟨o, ho, rfl⟩ := mem_normalize s raw kv hkv
    rw [findOpt_eq_some_of_nodup s o ho hwf.1] at hfo
    injection hfo with hfo
    subst hfo
    cases hl : lookupKey raw o.key with
    | none => simpa [hl] using hwf.2 o ho
    | some v =>
      have hm := lookupKey_some_mem raw o.key v hl
      have := (findTypeError_eq_none s raw).1 h2 (o.key, v) hm o
        (findOpt_eq_some_of_nodup s o ho hwf.1)
      simpa [hl] using this
  · rw [findDepViolation_congr s (normalize s raw) raw (effValue_normalize s raw h1)]
    exact h3

/- --------------------------------------------------------------------------
   Claim theorems for the validator (C6, C7, C1)
   ----------------------------------------------------------------------- -/

/-- C6: for every raw option map containing a key that is not present in the
option schema, Validate fails with a ValidationError naming an unknown key of
the map (the first such key); being pure, Validate mutates no backend state. -/
theorem validate_rejects_unknown_key (s : Schema) (raw : RawMap)
    (kv : String × Value) (hmem : kv ∈ raw) (hunk : kv.1 ∉ schemaKeys s) :
    ∃ k, Validate s raw = .error (.unknownOption k) ∧
      k ∈ raw.map Prod.fst ∧ k ∉ schemaKeys s := by
  obtain ⟨k, hk, hkm, hku⟩ := findUnknown_mem_of_unknown s raw kv hmem hunk
  refine ⟨k, ?_, hkm, hku⟩
  simp [Validate, hk]

/-- Witness for C6 at a concrete input: a map with the unknown key bogus. -/
theorem validate_rejects_unknown_key_witness :
    ∃ k, Validate CREATE_SCHEMA [("bogus", Value.bool true)] =
        .error (.unknownOption k) ∧
      k ∈ [("bogus", Value.bool true)].map Prod.fst ∧
      k ∉ schemaKeys CREATE_SCHEMA :=
  validate_rejects_unknown_key CREATE_SCHEMA [("bogus", Value.bool true)]
    ("bogus", Value.bool true) (by decide) (by decide)

/-- C7: a supplied map lacking a schema key validates to an output carrying
the schema default for that key, and validation is idempotent: re-validating
the normalized output returns it unchanged. -/
theorem validate_fills_defaults_idempotent (raw opts : RawMap)
    (h : Validate CREATE_SCHEMA raw = .ok opts) :
    (∀ o ∈ CREATE_SCHEMA, lookupKey raw o.key = none →
        lookupKey opts o.key = some o.default)
    ∧ Validate CREATE_SCHEMA opts = .ok opts := by
  have hwf : SchemaWF CREATE_SCHEMA := by decide
  refine ⟨?_, validate_normalize_ok CREATE_SCHEMA raw hwf opts h⟩
  obtain ⟨h1, h2, h3, rfl⟩ := (validate_eq_ok CREATE_SCHEMA raw opts).1 h
  intro o ho hnone
  rw [lookupKey_normalize, findOpt_eq_some_of_nodup CREATE_SCHEMA o ho hwf.1]
  simp [hnone]

/-- Witness for C7 at a concrete sparse input: the map only sets mount_home,
the output carries the gpu default and re-validates to itself. -/
theorem validate_fills_defaults_idempotent_witness :
    lookupKey (normalize CREATE_SCHEMA [("mount_home", Value.bool false)])
        "gpu" = some (Value.bool true)
    ∧ Validate CREATE_SCHEMA
        (normalize CREATE_SCHEMA [("mount_home", Value.bool false)]) =
      .ok (normalize CREATE_SCHEMA [("mount_home", Value.bool false)]) := by
  have h := validate_fills_defaults_idempotent [("mount_home", Value.bool false)]
    (normalize CREATE_SCHEMA [("mount_home", Value.bool false)]) rfl
  refine ⟨?_, h.2⟩
  have hg := h.1 (⟨"gpu", .boolean, .bool true, []⟩ : SchemaOption)
    (by decide) rfl
  simpa using hg

/-- C1 counterexample: a raw map that sets nvidia_drivers to true with
effective gpu false but also carries an unknown key fails with the
unknown-option error of step 1, not a dependency violation naming gpu. -/
def c1Raw : RawMap :=
  [("nvidia_drivers", .bool true), ("gpu", .bool false), ("bogus", .bool true)]

/-- C1 (counterexample): the claim as stated fails on c1Raw: nvidia_drivers
is set to true and the effective gpu value is false, yet Validate reports the
unknown key bogus rather than a dependency violation naming gpu. -/
theorem validate_dependency_unknown_key_first :
    lookupKey c1Raw "nvidia_drivers" = some (Value.bool true)
    ∧ effValue CREATE_SCHEMA c1Raw "gpu" = some (Value.bool false)
    ∧ Validate CREATE_SCHEMA c1Raw = .error (.unknownOption "bogus") :=
  ⟨rfl, rfl, rfl⟩

/-- C1 (amended): for every raw map with no unknown key and well-typed
values, if nvidia_drivers is caller-set to true while the effective gpu value
(caller-set if supplied, otherwise the schema default) is false, Validate
fails with a dependency violation naming nvidia_drivers and gpu.  The
dependency check resolves the effective value through effValue, which is
caller-set-or-default by definition. -/
theorem validate_dependency_effective_value (raw : RawMap)
    (hunk : ∀ kv ∈ raw, kv.1 ∈ schemaKeys CREATE_SCHEMA)
    (hty : ∀ kv ∈ raw, ∀ o ∈ CREATE_SCHEMA, o.key = kv.1 →
      kv.2.typeOf = o.type)
    (hnv : lookupKey raw "nvidia_drivers" = some (Value.bool true))
    (hgpu : effValue CREATE_SCHEMA raw "gpu" = some (Value.bool false)) :
    Validate CREATE_SCHEMA raw =
      .error (.dependencyViolation "nvidia_drivers" "gpu") := by
  have h1 : findUnknown CREATE_SCHEMA raw = none :=
    (findUnknown_eq_none CREATE_SCHEMA raw).2 hunk
  have h2 : findTypeError CREATE_SCHEMA raw = none := by
    rw [findTypeError_eq_none]
    intro kv hkv o hfo
    exact hty kv hkv o (findOpt_mem CREATE_SCHEMA kv.1 o hfo)
      (findOpt_key CREATE_SCHEMA kv.1 o hfo)
  have h3 : findDepViolation CREATE_SCHEMA raw CREATE_SCHEMA =
      some ("nvidia_drivers", "gpu") := by
    simp only [CREATE_SCHEMA] at hgpu ⊢
    simp [findDepViolation, firstUnmetDep, hgpu]
  simp [Validate, h1, h2, h3]

/-- Witness for the amended C1 at a concrete input. -/
theorem validate_dependency_effective_value_witness :
    Validate CREATE_SCHEMA
        [("nvidia_drivers", Value.bool true), ("gpu", Value.bool false)] =
      .error (.dependencyViolation "nvidia_drivers" "gpu") :=
  validate_dependency_effective_value
    [("nvidia_drivers", Value.bool true), ("gpu", Value.bool false)]
    (by decide) (by decide) (by decide) (by decide)

/- ============================================================================
   Section 2: Profile Reconciler.

   Modelled from the spec: the daemon profile-sync code is not under src/;
   spec 4.3 gives the algorithm and tests/integration/test-profile-sync.sh
   exercises it (profile kapsule-base, tag key user.kapsule.profile-hash,
   events created / updated, no event when the hash matches).  The backend
   profile store is an association list from profile name to stored content
   and optional hash tag; the content hash is a deterministic function of the
   canonical serialized content.
   ========================================================================= -/

/-- A declarative in-daemon profile definition; content is its canonical
serialized form. -/
structure ProfileDef where
  name : String
  content : String
deriving DecidableEq

/-- A profile as stored by the backend: content plus an optional hash tag
(backend metadata, absent when never tagged). -/
structure StoredProfile where
  content : String
  hashTag : Option String
deriving DecidableEq

/-- The backend profile store. -/
abbrev Backend := List (String × StoredProfile)

/-- A write issued to the backend by the reconciler. -/
inductive BackendWrite where
  | createProfile (name content tag : String)
  | updateProfile (name content tag : String)
deriving DecidableEq

/-- A log event recorded by the reconciler. -/
inductive ReconcileEvent where
  | created (name : String)
  | updated (name : String)
deriving DecidableEq

/-- Modelled from the spec: a deterministic content hash over the canonical
serialized form (the concrete digest the daemon uses is not under src/; the
claims only compare freshly computed hashes for equality). -/
def profileHash (content : String) : Nat :=
  content.data.foldl (fun h c => (h * 31 + c.toNat) % 1000000007) 7

/-- The hash tag string written to backend metadata. -/
def hashTagOf (d : ProfileDef) : String := toString (profileHash d.content)

/-- First stored profile with a given name. -/
def lookupProfile : Backend → String → Option StoredProfile
  | [], _ => none
  | e :: rest, n => if e.1 = n then some e.2 else lookupProfile rest n

/-- Replace the first profile with a given name, or append it when absent. -/
def setProfile : Backend → String → StoredProfile → Backend
  | [], n, sp => [(n, sp)]
  | e :: rest, n, sp => if e.1 = n then (n, sp) :: rest else e :: setProfile rest n sp

/-- Modelled from the spec: the per-definition step of Reconcile (spec 4.3).
Compute the content hash; create and tag when the profile is absent, record
created.  When present: equal stored tag means do nothing and record no
event; an absent or different tag means overwrite content and tag and record
updated.  In-place update only: nothing is ever deleted. -/
def reconcileOne (b : Backend) (d : ProfileDef) :
    Backend × List BackendWrite × List ReconcileEvent :=
  let h := hashTagOf d
  match lookupProfile b d.name with
  | none =>
    (setProfile b d.name ⟨d.content, some h⟩,
     [.createProfile d.name d.content h], [.created d.name])
  | some sp =>
    if sp.hashTag = some h then (b, [], [])
    else
      (setProfile b d.name ⟨d.content, some h⟩,
       [.updateProfile d.name d.content h], [.updated d.name])

/-- Modelled from the spec: Reconcile(definitions) runs the per-definition
step over all definitions in order, concatenating writes and events. -/
def reconcile : Backend → List ProfileDef → Backend × List BackendWrite × List ReconcileEvent
  | b, [] => (b, [], [])
  | b, d :: ds =>
    let r₁ := reconcileOne b d
    let r₂ := reconcile r₁.1 ds
    (r₂.1, r₁.2.1 ++ r₂.2.1, r₁.2.2 ++ r₂.2.2)

theorem lookupProfile_setProfile_self (b : Backend) (n : String) (sp : StoredProfile) :
    lookupProfile (setProfile b n sp) n = some sp := by
  induction b with
  | nil => simp [setProfile, lookupProfile]
  | cons e rest ih =>
    by_cases he : e.1 = n <;> simp [setProfile, lookupProfile, he, ih]

theorem lookupProfile_setProfile_other (b : Backend) (n m : String)
    (sp : StoredProfile) (hnm : m ≠ n) :
    lookupProfile (setProfile b n sp) m = lookupProfile b m := by
  induction b with
  | nil => simp [setProfile, lookupProfile, Ne.symm hnm]
  | cons e rest ih =>
    by_cases he : e.1 = n
    · subst he
      simp [setProfile, lookupProfile, Ne.symm hnm]
    · simp [setProfile, lookupProfile, he, ih]

/-- After the per-definition step, the addressed profile carries exactly the
freshly computed hash tag. -/
theorem reconcileOne_tag (b : Backend) (d : ProfileDef) :
    ∃ sp, lookupProfile (reconcileOne b d).1 d.name = some sp ∧
      sp.hashTag = some (hashTagOf d) := by
  unfold reconcileOne
  cases hl : lookupProfile b d.name with
  | none =>
    exact ⟨⟨d.content, some (hashTagOf d)⟩,
      by simp [lookupProfile_setProfile_self], rfl⟩
  | some sp =>
    by_cases ht : sp.hashTag = some (hashTagOf d)
    · exact ⟨sp, by simp [ht, hl], ht⟩
    · exact ⟨⟨d.content, some (hashTagOf d)⟩,
        by simp [ht, lookupProfile_setProfile_self], rfl⟩

/-- The per-definition step leaves every other profile name untouched. -/
theorem reconcileOne_preserves (b : Backend) (d : ProfileDef) (m : String)
    (hm : m ≠ d.name) :
    lookupProfile (reconcileOne b d).1 m = lookupProfile b m := by
  unfold reconcileOne
  cases hl : lookupProfile b d.name with
  | none => simp [lookupProfile_setProfile_other b d.name m _ hm]
  | some sp =>
    by_cases ht : sp.hashTag = some (hashTagOf d) <;>
      simp [ht, lookupProfile_setProfile_other b d.name m _ hm]

/-- Reconcile leaves every name not among the definitions untouched. -/
theorem reconcile_preserves (ds : List ProfileDef) (b : Backend) (m : String)
    (hm : ∀ d ∈ ds, m ≠ d.name) :
    lookupProfile (reconcile b ds).1 m = lookupProfile b m := by
  induction ds generalizing b with
  | nil => rfl
  | cons d rest ih =>
    have h₁ := reconcileOne_preserves b d m (hm d (List.mem_cons_self d rest))
    have h₂ := ih (reconcileOne b d).1 (fun d₂ hd₂ => hm d₂ (List.mem_cons_of_mem d hd₂))
    simpa [reconcile, h₂] using h₁

/-- After a full reconcile pass with pairwise-distinct names, every
definition has a stored profile tagged with its freshly computed hash. -/
theorem reconcile_tags_synced (ds : List ProfileDef) (b : Backend)
    (hnd : (ds.map ProfileDef.name).Nodup) :
    ∀ d ∈ ds, ∃ sp, lookupProfile (reconcile b ds).1 d.name = some sp ∧
      sp.hashTag = some (hashTagOf d) := by
  induction ds generalizing b with
  | nil => intro d hd; cases hd
  | cons d₀ rest ih =>
    intro d hd
    rcases List.mem_cons.1 hd with rfl | hdr
    · have hother : ∀ d₂ ∈ rest, d.name ≠ d₂.name := by
        intro d₂ hd₂ heq
        have : d.name ∈ rest.map ProfileDef.name := heq ▸ List.mem_map_of_mem _ hd₂
        exact (List.nodup_cons.1 hnd).1 this
      have hpres := reconcile_preserves rest (reconcileOne b d).1 d.name hother
      obtain ⟨sp, hsp, htag⟩ := reconcileOne_tag b d
      exact ⟨sp, by simpa [reconcile, hpres] using hsp, htag⟩
    · have := ih (reconcileOne b d₀).1 (List.nodup_cons.1 hnd).2 d hdr
      simpa [reconcile] using this

/-- On a backend where every definition is already tagged with its fresh
hash, Reconcile writes nothing and records no event. -/
theorem reconcile_noop_of_synced (ds : List ProfileDef) (b : Backend)
    (h : ∀ d ∈ ds, ∃ sp, lookupProfile b d.name = some sp ∧
      sp.hashTag = some (hashTagOf d)) :
    reconcile b ds = (b, [], []) := by
  induction ds generalizing b with
  | nil => rfl
  | cons d rest ih =>
    obtain ⟨sp, hl, ht⟩ := h d (List.mem_cons_self d rest)
    have h1 : reconcileOne b d = (b, [], []) := by
      unfold reconcileOne
      simp [hl, ht]
    simp [reconcile, h1, ih b (fun d₂ hd₂ => h d₂ (List.mem_cons_of_mem d hd₂))]

/- --------------------------------------------------------------------------
   Claim theorems for the reconciler (C2, C3)
   ----------------------------------------------------------------------- -/

/-- C2: for every stored profile whose hash tag is absent or differs from the
hash freshly computed over the current definition, the per-definition
Reconcile step overwrites content and tag so that the stored hash equals
exactly the fresh hash, and records exactly one updated event (no created
event). -/
theorem reconcile_restores_stale_hash (b : Backend) (d : ProfileDef)
    (sp : StoredProfile) (hl : lookupProfile b d.name = some sp)
    (hstale : sp.hashTag ≠ some (hashTagOf d)) :
    lookupProfile (reconcileOne b d).1 d.name =
      some ⟨d.content, some (hashTagOf d)⟩
    ∧ (reconcileOne b d).2.2 = [ReconcileEvent.updated d.name] := by
  unfold reconcileOne
  simp [hl, hstale, lookupProfile_setProfile_self]

/-- Witness for C2: a kapsule-base profile whose tag was corrupted to
stale-hash-value is rewritten to the fresh hash and logs updated (the
scenario of test-profile-sync.sh step 1). -/
theorem reconcile_restores_stale_hash_witness :
    lookupProfile
        (reconcileOne [("kapsule-base", ⟨"old-content", some "stale-hash-value"⟩)]
          ⟨"kapsule-base", "base-profile"⟩).1 "kapsule-base" =
      some ⟨"base-profile", some (hashTagOf ⟨"kapsule-base", "base-profile"⟩)⟩
    ∧ (reconcileOne [("kapsule-base", ⟨"old-content", some "stale-hash-value"⟩)]
        ⟨"kapsule-base", "base-profile"⟩).2.2 =
      [ReconcileEvent.updated "kapsule-base"] :=
  reconcile_restores_stale_hash
    [("kapsule-base", ⟨"old-content", some "stale-hash-value"⟩)]
    ⟨"kapsule-base", "base-profile"⟩ ⟨"old-content", some "stale-hash-value"⟩
    rfl (by decide)

/-- C3: Reconcile is idempotent: with identical definitions (names pairwise
distinct), a second consecutive run performs no backend write, changes no
stored hash tag, and emits no created or updated event. -/
theorem reconcile_second_run_noop (b : Backend) (ds : List ProfileDef)
    (hnd : (ds.map ProfileDef.name).Nodup) :
    reconcile (reconcile b ds).1 ds = ((reconcile b ds).1, [], []) :=
  reconcile_noop_of_synced ds (reconcile b ds).1 (reconcile_tags_synced ds b hnd)

/-- Witness for C3: reconciling the kapsule-base definition twice from an
empty backend leaves the second run with no writes and no events. -/
theorem reconcile_second_run_noop_witness :
    reconcile (reconcile [] [⟨"kapsule-base", "base-profile"⟩]).1
        [⟨"kapsule-base", "base-profile"⟩] =
      ((reconcile [] [⟨"kapsule-base", "base-profile"⟩]).1, [], []) :=
  reconcile_second_run_noop [] [⟨"kapsule-base", "base-profile"⟩] (by decide)

/- ============================================================================
   Section 3: Mount/Resource Planner.

   Modelled from the spec: the daemon planning code is not under src/;
   spec 4.4 gives the policy and the integration tests pin the concrete
   device names and paths: src/unnamed/part_005 (test-host-mounts) shows the
   hostfs full-root device, the lazy kapsule-hostrun-uid and kapsule-x11
   targeted devices under /.kapsule/host, and that a full-rootfs container
   never receives them; tests/integration/test-dbus-socket.sh shows the
   Default-mode bus symlink /run/user/uid/bus pointing at
   /.kapsule/host/run/user/uid/bus even for a full-rootfs container, and
   that a Session-mode container has no such symlink (its own bus service
   provides a real socket).  Accordingly the Default-mode bus symlink is
   emitted regardless of host-rootfs mode; symlinks are entry-phase items,
   the full-root bind and the raw GPU device are creation-phase items, and
   targeted binds are entry-phase items of minimal mode.
   ========================================================================= -/

/-- Integration mode of a container (ContainerMode in types.h). -/
inductive ContainerMode where
  | defaultMode
  | session
  | dbusMux
deriving DecidableEq

/-- Options the planner consumes. -/
structure PlanOptions where
  hostRootfs : Bool
  mode : ContainerMode
  gpu : Bool
deriving DecidableEq

/-- Discovered host resource state at planning time (re-checked at entry,
never cached from creation). -/
structure HostState where
  uid : Nat
  waylandSocket : Bool
  pulseSocket : Bool
  pipewireSocket : Bool
deriving DecidableEq

/-- Which host resource a symlink item exposes. -/
inductive SocketKind where
  | wayland
  | pulse
  | pipewire
  | bus
deriving DecidableEq

/-- One item of a MountPlan (spec 3): full-root bind, targeted bind,
directory-with-symlink, or raw device. -/
inductive MountItem where
  | fullRootBind (name source target : String)
  | targetedBind (name source target : String)
  | symlink (socket : SocketKind) (linkPath target : String)
  | rawDevice (name : String)
deriving DecidableEq

/-- Planning pass: at container creation, or lazily at first entry. -/
inductive PlanPhase where
  | creation
  | entry
deriving DecidableEq

/-- The fixed in-container path under which host paths appear. -/
def kapsuleHostRoot : String := "/.kapsule/host"

/-- A host path as seen under the fixed in-container host root. -/
def hostTarget (p : String) : String := kapsuleHostRoot ++ p

/-- The per-user runtime directory of a uid. -/
def runtimeDir (uid : Nat) : String := "/run/user/" ++ toString uid

/-- The user bus socket path of a uid. -/
def busPath (uid : Nat) : String := runtimeDir uid ++ "/bus"

/-- The X11 socket directory. -/
def x11Dir : String := "/tmp/.X11-unix"

/-- Bus symlink items by integration mode (spec 4.4): Default mode symlinks
the container user-bus path to the host path under the fixed root (the
test-dbus-socket.sh assertion, independent of host-rootfs mode); Session
mode emits no symlink so the container bus service provides a real socket;
the multiplexer mode also provides a real socket through its own service,
not a plain host symlink. -/
def busItems (opts : PlanOptions) (h : HostState) : List MountItem :=
  match opts.mode with
  | .defaultMode => [.symlink .bus (busPath h.uid) (hostTarget (busPath h.uid))]
  | .session => []
  | .dbusMux => []

/-- Display and audio symlink items at entry time, for the sockets the host
currently has (presence re-checked at entry, spec 4.4). -/
def displayAudioItems (h : HostState) : List MountItem :=
  (if h.waylandSocket then
    [.symlink .wayland (runtimeDir h.uid ++ "/wayland-0")
      (hostTarget (runtimeDir h.uid ++ "/wayland-0"))] else [])
  ++ (if h.pulseSocket then
    [.symlink .pulse (runtimeDir h.uid ++ "/pulse")
      (hostTarget (runtimeDir h.uid ++ "/pulse"))] else [])
  ++ (if h.pipewireSocket then
    [.symlink .pipewire (runtimeDir h.uid ++ "/pipewire-0")
      (hostTarget (runtimeDir h.uid ++ "/pipewire-0"))] else [])

/-- Modelled from the spec: Plan (spec 4.4).  Creation phase: one full-root
bind (hostfs) when host_rootfs is enabled, and a raw GPU device when gpu is
enabled, regardless of host-rootfs mode.  Entry phase: in minimal mode the
two lazily-created targeted binds (per-user runtime directory and X11 socket
directory, each at the same relative path under the fixed host root), then
the display/audio symlinks for currently present host sockets, then the
mode-dependent bus items. -/
def Plan (opts : PlanOptions) (h : HostState) : PlanPhase → List MountItem
  | .creation =>
    (if opts.hostRootfs then [.fullRootBind "hostfs" "/" kapsuleHostRoot] else [])
    ++ (if opts.gpu then [.rawDevice "gpu"] else [])
  | .entry =>
    (if opts.hostRootfs then [] else
      [.targetedBind ("kapsule-hostrun-" ++ toString h.uid) (runtimeDir h.uid)
        (hostTarget (runtimeDir h.uid)),
       .targetedBind "kapsule-x11" x11Dir (hostTarget x11Dir)])
    ++ displayAudioItems h
    ++ busItems opts h

/-- The full-root bind items of a plan. -/
def fullRootItems (l : List MountItem) : List MountItem :=
  l.filter fun i => match i with
    | .fullRootBind _ _ _ => true
    | _ => false

/-- The targeted bind items of a plan. -/
def targetedItems (l : List MountItem) : List MountItem :=
  l.filter fun i => match i with
    | .targetedBind _ _ _ => true
    | _ => false

/-- Whether an item is a bus-socket symlink. -/
def isBusSymlink : MountItem → Bool
  | .symlink .bus _ _ => true
  | _ => false

/- --------------------------------------------------------------------------
   Claim theorems for the planner (C4, C5)
   ----------------------------------------------------------------------- -/

/-- C4 (counterexample): the claim as stated fails: a full-rootfs container
in Default integration mode does receive a bus-socket symlink item (the
entry-phase symlink test-dbus-socket.sh asserts, pointing at the host bus
under the fixed host root). -/
theorem plan_full_rootfs_bus_symlink_exists :
    MountItem.symlink .bus (busPath 1000) (hostTarget (busPath 1000)) ∈
      Plan ⟨true, .defaultMode, false⟩ ⟨1000, false, false, false⟩ .entry := by
  simp [Plan, displayAudioItems, busItems]

/-- C4 (amended): with host_rootfs disabled and integration mode Session,
Plan contains no bus-socket symlink item in any phase: the container bus
service provides the real socket.  (The half of the claim asserting that
host_rootfs=true excludes bus symlinks is dropped: the Default-mode bus
symlink is emitted regardless of host-rootfs mode.) -/
theorem plan_session_mode_no_bus_symlink (opts : PlanOptions) (h : HostState)
    (ph : PlanPhase) (hroot : opts.hostRootfs = false)
    (hsess : opts.mode = .session) :
    ∀ i ∈ Plan opts h ph, isBusSymlink i = false := by
  obtain ⟨root, mode, gpu⟩ := opts
  obtain ⟨uid, wl, pu, pw⟩ := h
  cases hroot
  cases hsess
  cases ph <;> cases gpu <;> cases wl <;> cases pu <;> cases pw <;>
    simp [Plan, displayAudioItems, busItems, isBusSymlink]

/-- Witness for the amended C4 at a concrete input: in the Session-mode
minimal entry plan with all host sockets present, the x11 targeted item is
in the plan and is not a bus symlink. -/
theorem plan_session_mode_no_bus_symlink_witness :
    isBusSymlink (MountItem.targetedBind "kapsule-x11" x11Dir (hostTarget x11Dir)) = false :=
  plan_session_mode_no_bus_symlink ⟨false, .session, true⟩
    ⟨1000, true, true, true⟩ .entry rfl rfl
    (MountItem.targetedBind "kapsule-x11" x11Dir (hostTarget x11Dir)) (by decide)

/-- C5: in minimal mode the host root is not exposed in any phase and no
targeted device exists at creation; at first entry exactly the two targeted
devices appear: the per-user runtime directory and the X11 socket directory,
each bound at the same relative path under the fixed host root.  With
host_rootfs enabled the creation plan has exactly the one full-root bind and
no phase ever has a targeted device. -/
theorem plan_minimal_vs_full_devices (opts : PlanOptions) (h : HostState) :
    (opts.hostRootfs = false →
      fullRootItems (Plan opts h .creation) = []
      ∧ fullRootItems (Plan opts h .entry) = []
      ∧ targetedItems (Plan opts h .creation) = []
      ∧ targetedItems (Plan opts h .entry) =
        [ .targetedBind ("kapsule-hostrun-" ++ toString h.uid)
            (runtimeDir h.uid) (hostTarget (runtimeDir h.uid)),
          .targetedBind "kapsule-x11" x11Dir (hostTarget x11Dir) ])
    ∧ (opts.hostRootfs = true →
      fullRootItems (Plan opts h .creation) =
        [.fullRootBind "hostfs" "/" kapsuleHostRoot]
      ∧ ∀ ph, targetedItems (Plan opts h ph) = []) := by
  obtain ⟨root, mode, gpu⟩ := opts
  obtain ⟨uid, wl, pu, pw⟩ := h
  constructor
  · intro hroot
    cases hroot
    refine ⟨?_, ?_, ?_, ?_⟩ <;>
      cases mode <;> cases gpu <;> cases wl <;> cases pu <;> cases pw <;> rfl
  · intro hroot
    cases hroot
    refine ⟨?_, ?_⟩
    · cases gpu <;> rfl
    · intro ph
      cases ph <;> cases mode <;> cases gpu <;> cases wl <;> cases pu <;>
        cases pw <;> rfl

/-- Witness for C5 at concrete inputs: both branches instantiated, one per
host-rootfs mode. -/
theorem plan_minimal_vs_full_devices_witness :
    (targetedItems (Plan ⟨false, .defaultMode, true⟩ ⟨1000, true, true, true⟩ .entry) =
      [ .targetedBind ("kapsule-hostrun-" ++ toString 1000)
          (runtimeDir 1000) (hostTarget (runtimeDir 1000)),
        .targetedBind "kapsule-x11" x11Dir (hostTarget x11Dir) ])
    ∧ fullRootItems (Plan ⟨true, .defaultMode, true⟩ ⟨1000, true, true, true⟩ .creation) =
        [.fullRootBind "hostfs" "/" kapsuleHostRoot]
    ∧ targetedItems (Plan ⟨true, .defaultMode, true⟩ ⟨1000, true, true, true⟩ .entry) = [] :=
  ⟨((plan_minimal_vs_full_devices ⟨false, .defaultMode, true⟩
      ⟨1000, true, true, true⟩).1 rfl).2.2.2,
   ((plan_minimal_vs_full_devices ⟨true, .defaultMode, true⟩
      ⟨1000, true, true, true⟩).2 rfl).1,
   ((plan_minimal_vs_full_devices ⟨true, .defaultMode, true⟩
      ⟨1000, true, true, true⟩).2 rfl).2 .entry⟩

/- ============================================================================
   Section 4: Operation Engine state machine.

   Modelled from the spec: the daemon operation engine is not under src/;
   spec 4.1 and 3 give the per-operation state machine
   Pending -> Running -> (Completed | Failed | Cancelled), the single
   terminal Completed event, and cooperative cancellation: Cancel sets a
   flag observed at suspension points, and cancelling an operation already
   in a terminal state is a no-op.
   ========================================================================= -/

/-- Status of an operation. -/
inductive OpStatus where
  | pending
  | running
  | completed
  | failed
  | cancelled
deriving DecidableEq

/-- The three terminal states. -/
def OpStatus.isTerminal : OpStatus → Bool
  | .completed => true
  | .failed => true
  | .cancelled => true
  | _ => false

/-- An event in the ordered per-operation log; only the terminal Completed
event matters to the claims. -/
inductive OpEvent where
  | message (text : String)
  | completedEv (success : Bool) (errorMessage : String)
deriving DecidableEq

/-- A published operation object: status, cooperative cancel flag, ordered
event log. -/
structure Operation where
  status : OpStatus
  cancelRequested : Bool
  events : List OpEvent
deriving DecidableEq

/-- Modelled from the spec: Cancel(operation) (spec 4.1).  On a live
operation it sets the cooperative flag; once the operation is in a terminal
state it is a no-op: no status change, no event. -/
def cancelOp (op : Operation) : Operation :=
  if op.status.isTerminal then op else { op with cancelRequested := true }

/-- Modelled from the spec: the transitions of a single operation (spec 4.1).
Work starts from Pending; a running task finishes with success or failure or
observes the cancel flag at a suspension point; each terminal transition
appends exactly one Completed event. -/
inductive EngineStep : Operation → Operation → Prop where
  | start (op : Operation) : op.status = .pending →
      EngineStep op ⟨.running, op.cancelRequested, op.events⟩
  | finishOk (op : Operation) (m : String) : op.status = .running →
      EngineStep op
        ⟨.completed, op.cancelRequested, op.events ++ [.completedEv true m]⟩
  | finishFail (op : Operation) (m : String) : op.status = .running →
      EngineStep op
        ⟨.failed, op.cancelRequested, op.events ++ [.completedEv false m]⟩
  | observeCancel (op : Operation) : op.status = .running →
      op.cancelRequested = true →
      EngineStep op
        ⟨.cancelled, op.cancelRequested, op.events ++ [.completedEv false "cancelled"]⟩

/-- C9: cancelling an operation in a terminal state is a no-op (status,
flag and event log unchanged), and terminal states are final: no engine
transition, in particular no further Completed event, leaves them. -/
theorem cancel_terminal_noop (op : Operation)
    (hterm : op.status.isTerminal = true) :
    cancelOp op = op ∧ ∀ op₂, ¬ EngineStep op op₂ := by
  refine ⟨by simp [cancelOp, hterm], ?_⟩
  intro op₂ hstep
  cases hstep with
  | start hp => rw [hp] at hterm; cases hterm
  | finishOk m hr => rw [hr] at hterm; cases hterm
  | finishFail m hr => rw [hr] at hterm; cases hterm
  | observeCancel hr hc => rw [hr] at hterm; cases hterm

/-- Witness for C9: a completed operation is unchanged by Cancel and admits
no step to a running state. -/
theorem cancel_terminal_noop_witness :
    cancelOp ⟨.completed, false, [OpEvent.completedEv true ""]⟩ =
      ⟨.completed, false, [OpEvent.completedEv true ""]⟩
    ∧ ¬ EngineStep ⟨.completed, false, [OpEvent.completedEv true ""]⟩
        ⟨.running, false, [OpEvent.completedEv true ""]⟩ :=
  ⟨(cancel_terminal_noop ⟨.completed, false, [OpEvent.completedEv true ""]⟩ rfl).1,
   (cancel_terminal_noop ⟨.completed, false, [OpEvent.completedEv true ""]⟩ rfl).2 _⟩

/- ============================================================================
   Section 5: NVIDIA driver-injection mount hook.

   Embedded from src/data/nvidia-container-hook.sh.  The hook resolves its
   hook type from LXC_HOOK_VERSION (unset read as 0: type is positional
   argument 3; version 1: type is LXC_HOOK_TYPE; any other version leaves
   the type empty), exits 0 without effect unless the type is mount, exits 0
   when nvidia-container-cli is not on PATH or /dev/nvidia0 does not exist,
   and otherwise execs nvidia-container-cli configure with fixed arguments
   plus an ldconfig path when one resolves.
   ========================================================================= -/

/-- The environment the hook script observes. -/
structure HookEnv where
  lxcHookVersion : Option String
  arg3 : Option String
  lxcHookType : Option String
  nvidiaCliPresent : Bool
  devNvidia0Present : Bool
  ldconfigReal : Option String
  ldconfig : Option String
  rootfsMount : String
deriving DecidableEq

/-- What a hook run does. -/
inductive HookAction where
  | exitSilently
  | configure (args : List String) (rootfs : String)
deriving DecidableEq

/-- Hook-type resolution of the script (case on LXC_HOOK_VERSION, default
0; an unmatched version leaves HOOK_TYPE empty). -/
def hookType (e : HookEnv) : String :=
  match e.lxcHookVersion.getD "0" with
  | "0" => e.arg3.getD ""
  | "1" => e.lxcHookType.getD ""
  | _ => ""

/-- The ldconfig path resolution: ldconfig.real first, then ldconfig. -/
def ldconfigPath (e : HookEnv) : Option String :=
  e.ldconfigReal.orElse fun _ => e.ldconfig

/-- The fixed nvidia-container-cli configure argument list, plus the
ldconfig argument when a path resolved. -/
def configureArgs (e : HookEnv) : List String :=
  ["--no-cgroups", "--no-devbind", "--device=all", "--compute",
   "--utility", "--graphics"]
  ++ (match ldconfigPath e with
      | some p => ["--ldconfig=@" ++ p]
      | none => [])

/-- The hook logic of src/data/nvidia-container-hook.sh: guard on hook type,
then the two pre-flight checks, then exec nvidia-container-cli configure on
the container rootfs. -/
def nvidiaHook (e : HookEnv) : HookAction :=
  if hookType e ≠ "mount" then .exitSilently
  else if ¬ e.nvidiaCliPresent then .exitSilently
  else if ¬ e.devNvidia0Present then .exitSilently
  else .configure (configureArgs e) e.rootfsMount

/-- C8: the hook exits 0 without configuring whenever the driver CLI or the
GPU device node is absent, and for every non-mount hook type; it invokes the
driver-injection tool only when the hook type is mount and both the CLI and
the device node exist.  Registering it unconditionally is therefore safe. -/
theorem nvidia_hook_noop_without_driver (e : HookEnv) :
    (e.nvidiaCliPresent = false ∨ e.devNvidia0Present = false →
      nvidiaHook e = .exitSilently)
    ∧ (hookType e ≠ "mount" → nvidiaHook e = .exitSilently)
    ∧ (∀ args rootfs, nvidiaHook e = .configure args rootfs →
        hookType e = "mount" ∧ e.nvidiaCliPresent = true ∧
        e.devNvidia0Present = true) := by
  refine ⟨?_, ?_, ?_⟩
  · intro hmiss
    unfold nvidiaHook
    rcases hmiss with hcli | hdev
    · by_cases ht : hookType e ≠ "mount" <;> simp [ht, hcli]
    · by_cases ht : hookType e ≠ "mount" <;>
        by_cases hcli : e.nvidiaCliPresent <;> simp [ht, hcli, hdev]
  · intro ht
    simp [nvidiaHook, ht]
  · intro args rootfs hcfg
    unfold nvidiaHook at hcfg
    by_cases ht : hookType e ≠ "mount"
    · simp [ht] at hcfg
    · by_cases hcli : e.nvidiaCliPresent
      · by_cases hdev : e.devNvidia0Present
        · exact ⟨not_not.1 ht, hcli, hdev⟩
        · simp [ht, hcli, hdev] at hcfg
      · simp [ht, hcli] at hcfg

/-- Witness for C8: a mount-type invocation on a host with the CLI but no
GPU device node exits silently; the conclusion of the only-when direction
holds at a configuring environment. -/
theorem nvidia_hook_noop_without_driver_witness :
    nvidiaHook ⟨some "0", some "mount", none, true, false, none, none, "/r"⟩ =
      .exitSilently
    ∧ (hookType ⟨some "0", some "mount", none, true, true, none, none, "/r"⟩ = "mount"
       ∧ (⟨some "0", some "mount", none, true, true, none, none, "/r"⟩ : HookEnv).nvidiaCliPresent = true
       ∧ (⟨some "0", some "mount", none, true, true, none, none, "/r"⟩ : HookEnv).devNvidia0Present = true) :=
  ⟨(nvidia_hook_noop_without_driver
      ⟨some "0", some "mount", none, true, false, none, none, "/r"⟩).1
      (Or.inr rfl),
   (nvidia_hook_noop_without_driver
      ⟨some "0", some "mount", none, true, true, none, none, "/r"⟩).2.2
      (configureArgs ⟨some "0", some "mount", none, true, true, none, none, "/r"⟩)
      "/r" rfl⟩

/- ============================================================================
   Section 6: schema JSON parsing in the Qt client library.

   Embedded from parseCreateSchema in src/unnamed/part_008 (libkapsule-qt
   types.cpp) and the schema-install slice of KCMKapsule::refresh in
   src/src/kcm/kcm_kapsule.cpp lines 111-122.  JSON documents are modelled
   as a value tree; the Qt JSON text parser is library code, so a wire reply
   is modelled as the raw string together with its parse result (none when
   the text is not valid JSON).  The QJsonValue accessors carry their Qt
   defaults: toInt yields 0, toString the empty string, toArray the empty
   array, when the value has a different type.
   ========================================================================= -/

/-- A parsed JSON value. -/
inductive Json where
  | null
  | bool (b : Bool)
  | num (n : Int)
  | str (s : String)
  | arr (elements : List Json)
  | obj (fields : List (String × Json))

/-- Whether the top level is a JSON object (QJsonDocument::isObject). -/
def Json.isObject : Json → Bool
  | .obj _ => true
  | _ => false

/-- Field access (QJsonObject::value): null when absent or not an object. -/
def Json.getField : Json → String → Json
  | .obj fields, k =>
    match fields.find? (fun f => f.1 == k) with
    | some f => f.2
    | none => .null
  | _, _ => .null

/-- QJsonValue::toInt with default 0. -/
def Json.asInt : Json → Int
  | .num n => n
  | _ => 0

/-- QJsonValue::toString with default empty. -/
def Json.asString : Json → String
  | .str s => s
  | _ => ""

/-- QJsonValue::toArray with default empty. -/
def Json.asArray : Json → List Json
  | .arr xs => xs
  | _ => []

/-- QJsonObject::contains on an object value. -/
def Json.containsKey (j : Json) (k : String) : Bool :=
  match j with
  | .obj fields => fields.any (fun f => f.1 == k)
  | _ => false

/-- CreateSchemaOption of types.h (part_009). -/
structure CreateSchemaOption where
  key : String
  type : String
  title : String
  description : String
  defaultValue : Json
  itemFormat : String
  dependencies : List (String × Json)

/-- CreateSchemaSection of types.h (part_009). -/
structure CreateSchemaSection where
  id : String
  title : String
  options : List CreateSchemaOption

/-- CreateSchema of types.h (part_009); a default-constructed schema has
version 0 and no sections. -/
structure CreateSchema where
  version : Int
  sections : List CreateSchemaSection

/-- The per-option parsing loop body of parseCreateSchema (part_008):
fields via QJsonValue accessors, items.format only when items is present,
requires entries only when requires is present. -/
def parseOption (optVal : Json) : CreateSchemaOption :=
  { key := (optVal.getField "key").asString,
    type := (optVal.getField "type").asString,
    title := (optVal.getField "title").asString,
    description := (optVal.getField "description").asString,
    defaultValue := optVal.getField "default",
    itemFormat :=
      if optVal.containsKey "items" then
        ((optVal.getField "items").getField "format").asString
      else "",
    dependencies :=
      if optVal.containsKey "requires" then
        match optVal.getField "requires" with
        | .obj fields => fields
        | _ => []
      else [] }

/-- The per-section parsing loop body of parseCreateSchema (part_008). -/
def parseSection (sectionVal : Json) : CreateSchemaSection :=
  { id := (sectionVal.getField "id").asString,
    title := (sectionVal.getField "title").asString,
    options := (sectionVal.getField "options").asArray.map parseOption }

/-- parseCreateSchema of part_008: on a parse error (no document) or a
non-object top level, return the default-constructed schema (version 0, no
sections); otherwise read version and map the section array. -/
def parseCreateSchema (doc : Option Json) : CreateSchema :=
  match doc with
  | none => { version := 0, sections := [] }
  | some root =>
    if root.isObject then
      { version := (root.getField "version").asInt,
        sections := (root.getField "sections").asArray.map parseSection }
    else { version := 0, sections := [] }

/-- A GetCreateSchema reply: the raw wire string and its JSON parse result
(none when the text is not valid JSON). -/
structure SchemaReply where
  raw : String
  parsed : Option Json

/-- The schema state of the settings module: the once-only load flag and the
installed schema model. -/
structure KcmSchemaState where
  schemaLoaded : Bool
  installed : Option CreateSchema

/-- The schema-install slice of KCMKapsule::refresh (kcm_kapsule.cpp lines
111-122): skip when already loaded, skip an empty reply, parse, and install
only when the parsed version is greater than 0. -/
def kcmApplySchemaReply (st : KcmSchemaState) (r : SchemaReply) : KcmSchemaState :=
  if st.schemaLoaded then st
  else if r.raw.isEmpty then st
  else
    let schema := parseCreateSchema r.parsed
    if schema.version > 0 then ⟨true, some schema⟩ else st

/-- C10: parseCreateSchema is total by construction and fails closed: for
every reply that is not valid JSON or whose top level is not a JSON object
it returns exactly the version-0 schema with no sections, and the settings
module install step leaves the previous schema state untouched on such a
reply, because it only installs a schema whose version is greater than 0. -/
theorem parse_schema_fails_closed (doc : Option Json)
    (hbad : ∀ j, doc = some j → j.isObject = false) :
    parseCreateSchema doc = ⟨0, []⟩
    ∧ ∀ (st : KcmSchemaState) (raw : String),
        kcmApplySchemaReply st ⟨raw, doc⟩ = st := by
  have hp : parseCreateSchema doc = ⟨0, []⟩ := by
    cases doc with
    | none => rfl
    | some j => simp [parseCreateSchema, hbad j rfl]
  refine ⟨hp, ?_⟩
  intro st raw
  unfold kcmApplySchemaReply
  by_cases hl : st.schemaLoaded = true <;> by_cases he : raw.isEmpty = true <;>
    simp [hl, he, hp]

/-- Witness for C10: a reply whose top level is a JSON array yields the
version-0 schema and leaves an empty settings state untouched. -/
theorem parse_schema_fails_closed_witness :
    parseCreateSchema (some (Json.arr [])) = ⟨0, []⟩
    ∧ kcmApplySchemaReply ⟨false, none⟩ ⟨"[]", some (Json.arr [])⟩ =
        ⟨false, none⟩ :=
  ⟨(parse_schema_fails_closed (some (Json.arr []))
      (fun j hj => by cases hj; rfl)).1,
   (parse_schema_fails_closed (some (Json.arr []))
      (fun j hj => by cases hj; rfl)).2 ⟨false, none⟩ "[]"⟩

end Kapsule
